import Mathlib

/-!
Verification development for the diabetesguard repository.

The embedding follows src/svm_model.py (class DiabetesSVMModel) and
src/app.py (get_risk_color). Numbers are modelled with ℚ. The sklearn
fitting routines (SVC.fit, StandardScaler.fit, train_test_split,
classification_report, roc_curve/auc) are opaque numerical library calls;
they are modelled as abstract functions collected in an Env record, while
every piece of logic written in the repository itself (data fallback,
risk-score labelling, the lifecycle flags, the risk-tier thresholds, the
colour mapping) is translated concretely.
-/

namespace DiabetesGuard

/-- One row of the diabetes table: the 8 clinical feature columns, in the
column order of load_and_preprocess_data. -/
structure Row where
  Pregnancies : ℚ
  Glucose : ℚ
  BloodPressure : ℚ
  SkinThickness : ℚ
  Insulin : ℚ
  BMI : ℚ
  DiabetesPedigreeFunction : ℚ
  Age : ℚ
deriving DecidableEq

/-- X = df.drop('Outcome', axis=1): the feature columns in table order. -/
def rowFeatures (r : Row) : List ℚ :=
  [r.Pregnancies, r.Glucose, r.BloodPressure, r.SkinThickness,
   r.Insulin, r.BMI, r.DiabetesPedigreeFunction, r.Age]

/-- The risk_score series of load_and_preprocess_data:
Glucose*0.1 + BMI*0.08 + Age*0.05 + DiabetesPedigreeFunction*0.3
+ (Pregnancies > 5)*10 + (BloodPressure > 80)*5. -/
def riskScore (r : Row) : ℚ :=
  r.Glucose * (1/10) + r.BMI * (8/100) + r.Age * (5/100) +
    r.DiabetesPedigreeFunction * (3/10) +
    (if 5 < r.Pregnancies then (10 : ℚ) else 0) +
    (if 80 < r.BloodPressure then (5 : ℚ) else 0)

/-- pandas Series.median: middle element of the sorted values for odd
length, mean of the two middle elements for even length. -/
def pandasMedian (xs : List ℚ) : ℚ :=
  let s := List.insertionSort (· ≤ ·) xs
  let n := xs.length
  if n % 2 = 1 then s.getD (n / 2) 0
  else (s.getD (n / 2 - 1) 0 + s.getD (n / 2) 0) / 2

/-- The synthetic fallback table of load_and_preprocess_data, given the raw
feature rows (in the source these are 1000 rows drawn from numpy with seed
42; the draws themselves are the RNG's business, the labelling below is the
repository's own code):
df['Outcome'] = (risk_score > risk_score.median()).astype(int). -/
def makeSynthetic (raw : List Row) : List (Row × ℕ) :=
  let scores := raw.map riskScore
  let m := pandasMedian scores
  raw.zip (scores.map fun s => if m < s then 1 else 0)

/-- load_and_preprocess_data: try pd.read_csv('diabetes.csv'); on any
exception fall back to the synthetic table. csvRead models the outcome of
the read, raw the numpy feature draws of the fallback branch. -/
def load_and_preprocess_data (csvRead : Except Unit (List (Row × ℕ)))
    (raw : List Row) : List (Row × ℕ) :=
  match csvRead with
  | .ok df => df
  | .error _ => makeSynthetic raw

/-- Fitted StandardScaler state: per-feature mean and scale. -/
structure ScalerParams where
  mean : List ℚ
  scale : List ℚ
deriving DecidableEq

/-- (x - mean) / scale per feature, the arithmetic of a fitted
StandardScaler.transform. -/
def applyScale (p : ScalerParams) (x : List ℚ) : List ℚ :=
  (x.zip (p.mean.zip p.scale)).map fun q => (q.1 - q.2.1) / q.2.2

/-- Python-level exceptions the embedded calls can raise. -/
inductive PyErr where
  | notFittedError
  | attributeError
deriving DecidableEq

/-- sklearn StandardScaler.transform: check_is_fitted raises NotFittedError
when the scaler has no fitted parameters; otherwise apply the affine
transform. -/
def scalerTransform (params : Option ScalerParams) (x : List ℚ) :
    Except PyErr (List ℚ) :=
  match params with
  | none => .error PyErr.notFittedError
  | some p => .ok (applyScale p x)

/-- A fitted sklearn SVC(kernel='rbf', probability=True) trained on binary
labels: a hard-label decision function and a class-1 posterior estimate.
sklearn guarantees that predict returns one of the training classes (0 or 1
here) and that predict_proba rows are probabilities, so the class-1 entry
lies in [0, 1]; the two pathways are separate, so the label is not derived
from the probability. -/
structure FittedSVC where
  predictFn : List ℚ → ℕ
  probaFn : List ℚ → ℚ
  predictBinary : ∀ x, predictFn x = 0 ∨ predictFn x = 1
  probaNonneg : ∀ x, 0 ≤ probaFn x
  probaLeOne : ∀ x, probaFn x ≤ 1

/-- The metrics computed by train_model and exposed by get_model_metrics. -/
structure EvalReport where
  accuracy : ℚ
  conf_matrix : ℕ × ℕ × ℕ × ℕ
  class_report : List (String × ℚ)
  roc_auc : ℚ
deriving DecidableEq

/-- sklearn accuracy_score: fraction of agreeing positions. -/
def accuracy_score (yTrue yPred : List ℕ) : ℚ :=
  if yTrue.length = 0 then 0
  else ((yTrue.zip yPred).countP fun q => decide (q.1 = q.2)) / (yTrue.length : ℚ)

/-- sklearn confusion_matrix for labels {0,1}: (tn, fp, fn, tp). -/
def confusion_matrix (yTrue yPred : List ℕ) : ℕ × ℕ × ℕ × ℕ :=
  let z := yTrue.zip yPred
  (z.countP fun q => decide (q.1 = 0 ∧ q.2 = 0),
   z.countP fun q => decide (q.1 = 0 ∧ q.2 = 1),
   z.countP fun q => decide (q.1 = 1 ∧ q.2 = 0),
   z.countP fun q => decide (q.1 = 1 ∧ q.2 = 1))

/-- Mutable state of a DiabetesSVMModel instance: self.model and
self.scaler are Option values whose none means the unfitted library object
of __init__, self.is_trained the flag, and metrics the attributes
(accuracy, conf_matrix, class_report, roc_auc) that exist only after a
training run. -/
structure ModelState where
  model : Option FittedSVC
  scaler : Option ScalerParams
  is_trained : Bool
  metrics : Option EvalReport

/-- __init__: unfitted SVC, unfitted StandardScaler, is_trained = False,
no metric attributes. -/
def initState : ModelState :=
  { model := none, scaler := none, is_trained := false, metrics := none }

/-- The ambient world of a DiabetesSVMModel: the csv read outcome, the
numpy feature draws of the fallback, the opaque sklearn fitting routines
(train_test_split with seed 42, StandardScaler.fit, SVC.fit,
classification_report, roc_curve + auc), and the diabetes_model.pkl
artifact currently on disk (none when the file is absent or unreadable). -/
structure Env where
  csvRead : Except Unit (List (Row × ℕ))
  rawRows : List Row
  split : List (Row × ℕ) → List (Row × ℕ) × List (Row × ℕ)
  fitScaler : List (List ℚ) → ScalerParams
  fitSVC : List (List ℚ) → List ℕ → FittedSVC
  classReportFn : List ℕ → List ℕ → List (String × ℚ)
  rocAucFn : List ℕ → List ℚ → ℚ
  artifact : Option (FittedSVC × ScalerParams)

/-- train_model: load the data, split 80/20, fit the scaler on the training
partition, scale both partitions, fit the SVC, evaluate on the test
partition, set is_trained = True, and dump {'model': ..., 'scaler': ...}
to diabetes_model.pkl. The second component is the dumped artifact. -/
def train_model (env : Env) : ModelState × (FittedSVC × ScalerParams) :=
  let df := load_and_preprocess_data env.csvRead env.rawRows
  let parts := env.split df
  let XTrain := parts.1.map fun r => rowFeatures r.1
  let yTrain := parts.1.map Prod.snd
  let XTest := parts.2.map fun r => rowFeatures r.1
  let yTest := parts.2.map Prod.snd
  let sp := env.fitScaler XTrain
  let XTrainScaled := XTrain.map (applyScale sp)
  let XTestScaled := XTest.map (applyScale sp)
  let svc := env.fitSVC XTrainScaled yTrain
  let yPred := XTestScaled.map svc.predictFn
  let yProba := XTestScaled.map svc.probaFn
  let report : EvalReport :=
    { accuracy := accuracy_score yTest yPred
      conf_matrix := confusion_matrix yTest yPred
      class_report := env.classReportFn yTest yPred
      roc_auc := env.rocAucFn yTest yProba }
  ({ model := some svc, scaler := some sp, is_trained := true,
     metrics := some report },
   (svc, sp))

/-- The lazy-initialization prefix of predict: if not self.is_trained, try
joblib.load('diabetes_model.pkl') and install its model and scaler; on
exception fall back to self.train_model(). -/
def lazyInit (env : Env) (st : ModelState) : ModelState :=
  if st.is_trained then st
  else
    match env.artifact with
    | some a =>
        { st with model := some a.1, scaler := some a.2, is_trained := true }
    | none => (train_model env).1

/-- The dictionary predict returns. -/
structure PredictionResult where
  prediction : ℕ
  probability : ℚ
  risk_level : String
  recommendation : String
  result : String
deriving DecidableEq

def lowRecText : String := "Maintain healthy lifestyle with regular checkups"

def medRecText : String := "Consult healthcare provider and monitor regularly"

def highRecText : String := "Immediate consultation with healthcare provider recommended"

/-- The risk-level chain of predict: probability < 0.3 gives Low,
probability < 0.7 gives Medium, otherwise High, each with its fixed
recommendation string. -/
def riskAssessment (probability : ℚ) : String × String :=
  if probability < 3/10 then ("Low", lowRecText)
  else if probability < 7/10 then ("Medium", medRecText)
  else ("High", highRecText)

/-- The result dictionary built from the classifier outputs on the scaled
vector. -/
def mkPrediction (svc : FittedSVC) (scaled : List ℚ) : PredictionResult :=
  { prediction := svc.predictFn scaled
    probability := svc.probaFn scaled
    risk_level := (riskAssessment (svc.probaFn scaled)).1
    recommendation := (riskAssessment (svc.probaFn scaled)).2
    result := if svc.predictFn scaled = 1 then "Diabetic" else "Non-Diabetic" }

/-- predict: lazy initialization, then scaler.transform on the feature
vector (NotFittedError propagates if the scaler is unfitted), then
model.predict and model.predict_proba (NotFittedError if the model is
unfitted), then the risk-level mapping. Returns the state after the call
and the outcome. -/
def predict (env : Env) (st : ModelState) (features : List ℚ) :
    ModelState × Except PyErr PredictionResult :=
  let st1 := lazyInit env st
  (st1,
    match scalerTransform st1.scaler features with
    | .error e => .error e
    | .ok scaled =>
        match st1.model with
        | none => .error PyErr.notFittedError
        | some svc => .ok (mkPrediction svc scaled))

/-- What get_model_metrics returns: the metric attributes plus the
training_date string, which the source fills with datetime.now() at the
time of the call (the now argument). -/
structure MetricsOut where
  report : EvalReport
  training_date : String
deriving DecidableEq

/-- get_model_metrics: None when not self.is_trained; otherwise read the
metric attributes (an AttributeError if they were never set, which the
source leaves possible when is_trained was established by loading the
artifact) and attach the timestamp. -/
def get_model_metrics (st : ModelState) (now : String) :
    Except PyErr (Option MetricsOut) :=
  if st.is_trained then
    match st.metrics with
    | some r => .ok (some { report := r, training_date := now })
    | none => .error PyErr.attributeError
  else .ok none

/-- get_risk_color of src/app.py: green below 0.3, yellow below 0.7, red
otherwise. -/
def get_risk_color (probability : ℚ) : String :=
  if probability < 3/10 then "#28a745"
  else if probability < 7/10 then "#ffc107"
  else "#dc3545"

/-- The SVC and scaler train_model fits and dumps. -/
def trainedSVC (env : Env) : FittedSVC := (train_model env).2.1

/-- See trainedSVC. -/
def trainedScaler (env : Env) : ScalerParams := (train_model env).2.2

/-- A constant fitted classifier, used to instantiate the abstract library
routines on concrete inputs: label 0 and class-1 probability 1/2
everywhere. -/
def constSVC : FittedSVC where
  predictFn := fun _ => 0
  probaFn := fun _ => 1/2
  predictBinary := fun _ => Or.inl rfl
  probaNonneg := fun _ => by norm_num
  probaLeOne := fun _ => by norm_num

/-- An identity scaler on one feature. -/
def unitScaler : ScalerParams := { mean := [0], scale := [1] }

/-- A concrete environment: the csv read fails, the fitting routines return
the constant classifier and identity scaler, and a persisted artifact is
present on disk. -/
def demoEnv : Env where
  csvRead := .error ()
  rawRows := []
  split := fun df => (df, df)
  fitScaler := fun _ => unitScaler
  fitSVC := fun _ _ => constSVC
  classReportFn := fun _ _ => []
  rocAucFn := fun _ _ => 0
  artifact := some (constSVC, unitScaler)

/-- The result predict produces in demoEnv on the vector [1]. -/
def demoResult : PredictionResult := mkPrediction constSVC (applyScale unitScaler [1])

/-! Helper lemmas shared by the claim theorems. -/

theorem zip_self_map {α β : Type} (l : List α) (f : α → β) :
    l.zip (l.map f) = l.map fun x => (x, f x) := by
  induction l with
  | nil => rfl
  | cons a t ih => simp [ih]

theorem makeSynthetic_eq (raw : List Row) :
    makeSynthetic raw = raw.map fun x =>
      (x, if pandasMedian (raw.map riskScore) < riskScore x then 1 else 0) := by
  simp only [makeSynthetic]
  rw [List.map_map]
  exact zip_self_map raw _

theorem predict_fst (env : Env) (st : ModelState) (v : List ℚ) :
    (predict env st v).1 = lazyInit env st := rfl

theorem predict_snd_eq (env : Env) (st : ModelState) (v : List ℚ) :
    (predict env st v).2 =
      match scalerTransform (lazyInit env st).scaler v with
      | .error e => .error e
      | .ok scaled =>
          match (lazyInit env st).model with
          | none => .error PyErr.notFittedError
          | some svc => .ok (mkPrediction svc scaled) := rfl

theorem lazyInit_is_trained (env : Env) (st : ModelState) :
    (lazyInit env st).is_trained = true := by
  unfold lazyInit
  cases h : st.is_trained with
  | false =>
      simp only [h, Bool.false_eq_true, if_false]
      cases env.artifact <;> rfl
  | true => simp [h]

theorem predict_ok_shape (env : Env) (st : ModelState) (v : List ℚ)
    (r : PredictionResult) (h : (predict env st v).2 = .ok r) :
    ∃ svc scaled, (lazyInit env st).model = some svc ∧
      r = mkPrediction svc scaled := by
  rw [predict_snd_eq] at h
  rcases hts : scalerTransform (lazyInit env st).scaler v with e | scaled
  · rw [hts] at h; cases h
  · rw [hts] at h
    rcases hm : (lazyInit env st).model with _ | svc
    · rw [hm] at h; cases h
    · rw [hm] at h
      refine ⟨svc, scaled, rfl, ?_⟩
      cases h; rfl

theorem train_model_fst_model (env : Env) :
    (train_model env).1.model = some (trainedSVC env) := rfl

theorem train_model_fst_scaler (env : Env) :
    (train_model env).1.scaler = some (trainedScaler env) := rfl

theorem predict_snd_of_fitted (env : Env) (st : ModelState) (v : List ℚ)
    (svc : FittedSVC) (sp : ScalerParams)
    (hm : (lazyInit env st).model = some svc)
    (hs : (lazyInit env st).scaler = some sp) :
    (predict env st v).2 = .ok (mkPrediction svc (applyScale sp v)) := by
  rw [predict_snd_eq, hs, hm]
  rfl

theorem lazyInit_artifact_none (env : Env) (ha : env.artifact = none) :
    lazyInit env initState = (train_model env).1 := by
  unfold lazyInit
  simp [initState, ha]

theorem lazyInit_artifact_some (env : Env) (a : FittedSVC × ScalerParams)
    (ha : env.artifact = some a) :
    lazyInit env initState =
      { initState with model := some a.1, scaler := some a.2, is_trained := true } := by
  unfold lazyInit
  simp [initState, ha]

theorem mkPrediction_valid (svc : FittedSVC) (scaled : List ℚ) :
    ((mkPrediction svc scaled).prediction = 0 ∨ (mkPrediction svc scaled).prediction = 1) ∧
    0 ≤ (mkPrediction svc scaled).probability ∧ (mkPrediction svc scaled).probability ≤ 1 ∧
    ((mkPrediction svc scaled).risk_level, (mkPrediction svc scaled).recommendation) =
      riskAssessment (mkPrediction svc scaled).probability :=
  ⟨svc.predictBinary scaled, svc.probaNonneg scaled, svc.probaLeOne scaled, rfl⟩

/-- C1: predict maps the returned probability to a risk tier by the fixed
thresholds — p below 0.3 gives Low, p in [0.3, 0.7) Medium, p at least 0.7
High, with the boundary values 0.29, 0.30, 0.69, 0.70 landing as listed —
and attaches the one fixed recommendation string of that tier; the tier and
recommendation in every successful predict result are the pure function
riskAssessment of the result's own probability alone. -/
theorem C1_risk_tiers (p : ℚ) (env : Env) (st : ModelState) (v : List ℚ) :
    (p < 3/10 → riskAssessment p = ("Low", lowRecText)) ∧
    (3/10 ≤ p → p < 7/10 → riskAssessment p = ("Medium", medRecText)) ∧
    (7/10 ≤ p → riskAssessment p = ("High", highRecText)) ∧
    riskAssessment (29/100) = ("Low", lowRecText) ∧
    riskAssessment (30/100) = ("Medium", medRecText) ∧
    riskAssessment (69/100) = ("Medium", medRecText) ∧
    riskAssessment (70/100) = ("High", highRecText) ∧
    Except.map (fun r => (r.risk_level, r.recommendation)) (predict env st v).2 =
      Except.map (fun r => riskAssessment r.probability) (predict env st v).2 := by
  refine ⟨?_, ?_, ?_, by norm_num [riskAssessment], by norm_num [riskAssessment],
    by norm_num [riskAssessment], by norm_num [riskAssessment], ?_⟩
  · intro h; simp [riskAssessment, h]
  · intro h1 h2
    simp [riskAssessment, not_lt.mpr h1, h2]
  · intro h
    have h1 : ¬ p < 3/10 := not_lt.mpr (le_trans (by norm_num) h)
    have h2 : ¬ p < 7/10 := not_lt.mpr h
    simp [riskAssessment, h1, h2]
  · rcases hr : (predict env st v).2 with e | r
    · rfl
    · obtain ⟨svc, scaled, _, hshape⟩ := predict_ok_shape env st v r hr
      subst hshape
      simp [Except.map, mkPrediction]

/-- C2: the synthetic fallback labels every generated row by thresholding
the weighted risk-score combination of that row's features against the
median of the scores of the whole table — label 1 exactly when the row's
score exceeds the median, 0 otherwise — and produces one labelled row per
generated feature row (1000 in the source's fallback). -/
theorem C2_synthetic_labels (raw : List Row) :
    (makeSynthetic raw).length = raw.length ∧
    makeSynthetic raw = raw.map fun x =>
      (x, if pandasMedian (raw.map riskScore) < riskScore x then 1 else 0) := by
  refine ⟨?_, makeSynthetic_eq raw⟩
  rw [makeSynthetic_eq raw, List.length_map]

/-- C3: reaching the transform step of predict with an unfitted scaler
while is_trained is set fails with the scaler's NotFittedError — the
sklearn invalid-state failure — rather than producing numbers. -/
theorem C3_transform_before_fit (env : Env) (m : Option FittedSVC)
    (mt : Option EvalReport) (v : List ℚ) :
    (predict env
        { model := m, scaler := none, is_trained := true, metrics := mt }
        v).2 = .error PyErr.notFittedError := rfl

/-- C9: the web layer's get_risk_color agrees with the pipeline's risk-tier
mapping at every probability: green exactly on tier Low, yellow exactly on
tier Medium, red exactly on tier High (both use the cuts 0.3 and 0.7). -/
theorem C9_color_tier_agreement (p : ℚ) :
    (get_risk_color p = "#28a745" ↔ (riskAssessment p).1 = "Low") ∧
    (get_risk_color p = "#ffc107" ↔ (riskAssessment p).1 = "Medium") ∧
    (get_risk_color p = "#dc3545" ↔ (riskAssessment p).1 = "High") := by
  unfold get_risk_color riskAssessment
  split_ifs <;> exact ⟨by decide, by decide, by decide⟩

/-- C4: get_model_metrics on any state whose is_trained flag is unset (no
training run, no loaded artifact) returns the explicit empty result None —
no exception — and on the state produced by a training run it returns the
evaluation report stored by that run plus the timestamp string. -/
theorem C4_metrics_lifecycle (m : Option FittedSVC) (sc : Option ScalerParams)
    (mt : Option EvalReport) (now : String) (env : Env) :
    get_model_metrics { model := m, scaler := sc, is_trained := false, metrics := mt } now
      = .ok none ∧
    ∃ r, ((train_model env).1).metrics = some r ∧
      get_model_metrics ((train_model env).1) now =
        .ok (some { report := r, training_date := now }) :=
  ⟨rfl, _, rfl, rfl⟩

/-- C5: when the csv read fails, load_and_preprocess_data recovers silently
by returning the synthetic table — a labelled training table with binary
labels — and surfaces no error. -/
theorem C5_silent_fallback (raw : List Row) (e : Unit) :
    load_and_preprocess_data (.error e) raw = makeSynthetic raw ∧
    ∀ row ∈ load_and_preprocess_data (.error e) raw, row.2 = 0 ∨ row.2 = 1 := by
  refine ⟨rfl, ?_⟩
  intro row hrow
  rw [show load_and_preprocess_data (.error e) raw = makeSynthetic raw from rfl,
    makeSynthetic_eq] at hrow
  rcases List.mem_map.mp hrow with ⟨x, _, hxe⟩
  rw [← hxe]
  by_cases hc : pandasMedian (raw.map riskScore) < riskScore x
  · right; simp [hc]
  · left; simp [hc]

/-- C6: predict on the untrained initial state first attempts to load the
persisted artifact (installing its classifier and scaler when present), and
when none exists triggers a full training run; in either case it returns a
valid PredictionResult: label in {0,1}, probability in [0,1], and the
tier/recommendation pair of the risk mapping. -/
theorem C6_lazy_predict (env : Env) (v : List ℚ) :
    (env.artifact = none → (predict env initState v).1 = (train_model env).1) ∧
    (∀ a, env.artifact = some a →
        (predict env initState v).1.model = some a.1 ∧
        (predict env initState v).1.scaler = some a.2) ∧
    ∃ r, (predict env initState v).2 = .ok r ∧
      (r.prediction = 0 ∨ r.prediction = 1) ∧
      0 ≤ r.probability ∧ r.probability ≤ 1 ∧
      (r.risk_level, r.recommendation) = riskAssessment r.probability := by
  refine ⟨?_, ?_, ?_⟩
  · intro ha
    rw [predict_fst, lazyInit_artifact_none env ha]
  · intro a ha
    rw [predict_fst, lazyInit_artifact_some env a ha]
    exact ⟨rfl, rfl⟩
  · rcases ha : env.artifact with _ | a
    · have hm : (lazyInit env initState).model = some (trainedSVC env) := by
        rw [lazyInit_artifact_none env ha, train_model_fst_model]
      have hs : (lazyInit env initState).scaler = some (trainedScaler env) := by
        rw [lazyInit_artifact_none env ha, train_model_fst_scaler]
      refine ⟨mkPrediction (trainedSVC env) (applyScale (trainedScaler env) v),
        predict_snd_of_fitted env initState v _ _ hm hs, ?_⟩
      obtain ⟨h1, h2, h3, h4⟩ := mkPrediction_valid (trainedSVC env)
        (applyScale (trainedScaler env) v)
      exact ⟨h1, h2, h3, h4⟩
    · have hm : (lazyInit env initState).model = some a.1 := by
        rw [lazyInit_artifact_some env a ha]
      have hs : (lazyInit env initState).scaler = some a.2 := by
        rw [lazyInit_artifact_some env a ha]
      refine ⟨mkPrediction a.1 (applyScale a.2 v),
        predict_snd_of_fitted env initState v _ _ hm hs, ?_⟩
      obtain ⟨h1, h2, h3, h4⟩ := mkPrediction_valid a.1 (applyScale a.2 v)
      exact ⟨h1, h2, h3, h4⟩

/-- C7: every successful predict result has a class label in {0,1} and a
probability in [0,1]. -/
theorem C7_probability_bounds (env : Env) (st : ModelState) (v : List ℚ)
    (r : PredictionResult) (h : (predict env st v).2 = .ok r) :
    (r.prediction = 0 ∨ r.prediction = 1) ∧
    0 ≤ r.probability ∧ r.probability ≤ 1 := by
  obtain ⟨svc, scaled, _, hshape⟩ := predict_ok_shape env st v r h
  subst hshape
  exact ⟨svc.predictBinary scaled, svc.probaNonneg scaled, svc.probaLeOne scaled⟩

/-- Witness for C7: in the concrete demoEnv, predict on [1] succeeds and
the bounds hold for its result. -/
theorem C7_probability_bounds_witness :
    (predict demoEnv initState [1]).2 = .ok demoResult ∧
    ((demoResult.prediction = 0 ∨ demoResult.prediction = 1) ∧
     0 ≤ demoResult.probability ∧ demoResult.probability ≤ 1) :=
  ⟨rfl, C7_probability_bounds demoEnv initState [1] demoResult rfl⟩

/-- C8: round-trip of the persisted artifact — loading the {classifier,
scaler} pair dumped by a training run into a fresh untrained instance gives
predict outcomes identical (same label and probability, the whole result)
to predicting with the in-memory trained state that dumped it, for every
input vector. -/
theorem C8_artifact_roundtrip (env : Env) (v : List ℚ) :
    (predict { env with artifact := some (train_model env).2 } initState v).2 =
      (predict env (train_model env).1 v).2 := rfl

/-- C10: the is_trained flag is monotone — false in the initial state, true
after every train_model run, true in the state every predict call leaves
behind (it is established before the input is transformed), and a predict
call on an already-trained state leaves the state untouched; no operation
resets the flag. -/
theorem C10_trained_flag_monotone (env : Env) (st : ModelState) (v : List ℚ) :
    initState.is_trained = false ∧
    ((train_model env).1).is_trained = true ∧
    ((predict env st v).1).is_trained = true ∧
    (st.is_trained = true → (predict env st v).1 = st) := by
  refine ⟨rfl, rfl, ?_, ?_⟩
  · rw [predict_fst]
    exact lazyInit_is_trained env st
  · intro h
    rw [predict_fst]
    unfold lazyInit
    simp [h]

end DiabetesGuard
